import Mathlib

/-!
Verification development for the squad-optimization core of the
TripleCaptain repository.  The definitions below are a shallow embedding
of `backend/app/optimization/squad_optimizer.py` and
`backend/app/optimization/transfer_planner.py`: Python floats are
modelled as rationals (`ℚ`), Python ints as `Nat`/`ℤ`, Python lists as
`List`, and the external integer-program solver as an explicit function
parameter from the built problem to a reported status plus a 0/1
assignment of the binary decision variables.  Per-player result
dictionaries (`_player_to_dict`) are kept as `PlayerData` values; the
numeric rounding the code applies (`round(x, 1)`, Python's
round-half-to-even) is modelled exactly by `round1`.
-/

/-- Python `round` at a given scale: round half to even on rationals. -/
def roundHalfEvenInt (q : ℚ) : ℤ :=
  let f := ⌊q⌋
  let r := q - f
  if r < 1/2 then f
  else if 1/2 < r then f + 1
  else if f % 2 = 0 then f else f + 1

/-- Python `round(x, 1)`. -/
def round1 (q : ℚ) : ℚ := (roundHalfEvenInt (q * 10) : ℚ) / 10

/-- Python `round(x, 2)`. -/
def round2 (q : ℚ) : ℚ := (roundHalfEvenInt (q * 100) : ℚ) / 100

/-- `PlayerData` dataclass of `squad_optimizer.py` (positions are the
ints 1 = GK, 2 = DEF, 3 = MID, 4 = FWD). -/
structure PlayerData where
  id : Nat
  position : Nat
  team_id : Nat
  price : ℚ
  predicted_points : ℚ
  start_probability : ℚ
  name : String
  variance : ℚ := 0
  ceiling_points : ℚ := 0
  floor_points : ℚ := 0
  deriving DecidableEq, Repr

/-- `OptimizationConstraints` dataclass.  The Python defaults
`excluded_players = None` / `required_players = None` behave exactly as
empty lists everywhere in the code (`if constraints.excluded_players:`
is false for both), so both are modelled as `List Nat` with `[]`. -/
structure OptimizationConstraints where
  budget : ℚ := 100
  squad_size : Nat := 15
  starting_xi_size : Nat := 11
  max_players_per_team : Nat := 3
  formation : Option String := none
  excluded_players : List Nat := []
  required_players : List Nat := []
  risk_tolerance : ℚ := 1/2
  deriving DecidableEq, Repr

/-- `FormationConstraints` dataclass: exact GK count plus
(min, max) ranges for defenders, midfielders and forwards. -/
structure FormationConstraints where
  goalkeepers : Nat := 1
  defenders : Nat × Nat := (3, 5)
  midfielders : Nat × Nat := (2, 5)
  forwards : Nat × Nat := (1, 3)
  deriving DecidableEq, Repr

/-- The `FORMATION_CONSTRAINTS` dict, in insertion (catalog) order. -/
def FORMATION_CONSTRAINTS : List (String × FormationConstraints) :=
  [("3-4-3", ⟨1, (3, 3), (4, 4), (3, 3)⟩),
   ("3-5-2", ⟨1, (3, 3), (5, 5), (2, 2)⟩),
   ("4-3-3", ⟨1, (4, 4), (3, 3), (3, 3)⟩),
   ("4-4-2", ⟨1, (4, 4), (4, 4), (2, 2)⟩),
   ("4-5-1", ⟨1, (4, 4), (5, 5), (1, 1)⟩),
   ("5-3-2", ⟨1, (5, 5), (3, 3), (2, 2)⟩),
   ("5-4-1", ⟨1, (5, 5), (4, 4), (1, 1)⟩)]

/-- The three binary decision-variable families created per player in
`optimize_squad`: `squad_i`, `starting_i`, `captain_i`. -/
inductive LpVar where
  | squad (id : Nat)
  | starting (id : Nat)
  | captain (id : Nat)
  deriving DecidableEq, Repr

/-- Comparison direction of a pulp linear constraint. -/
inductive Cmp where
  | le
  | eq
  | ge
  deriving DecidableEq, Repr

/-- One pulp linear constraint `Σ coeff·var ⟨cmp⟩ rhs`.  A constraint
`lhs ≤ rhs` between two variable sums is encoded with the right-hand
variables moved to the left with coefficient −1. -/
structure LinConstraint where
  terms : List (ℚ × LpVar)
  cmp : Cmp
  rhs : ℚ
  deriving DecidableEq, Repr

/-- `_group_players_by_position` keeps only positions 1–4; selecting one
group is a filter on the position field. -/
def playersOfPosition (players : List PlayerData) (pos : Nat) : List PlayerData :=
  players.filter (fun p => p.position = pos)

/-- Objective terms of `optimize_squad`: per player the base term
`predicted·probability` on the starting variable, the identical captain
bonus on the captain variable, and the linear risk adjustment on the
starting variable when `risk_tolerance ≠ 0.5`. -/
def objectiveTerms (players : List PlayerData) (cons : OptimizationConstraints) :
    List (ℚ × LpVar) :=
  players.flatMap (fun p =>
    [(p.predicted_points * p.start_probability, LpVar.starting p.id),
     (p.predicted_points * p.start_probability, LpVar.captain p.id)] ++
    (if cons.risk_tolerance < 1/2 then
      [(-(p.variance * (1/2 - cons.risk_tolerance) * 2), LpVar.starting p.id)]
     else if 1/2 < cons.risk_tolerance then
      [(p.variance * (cons.risk_tolerance - 1/2) * 2, LpVar.starting p.id)]
     else []))

/-- The `excluded_players` block of `_add_squad_constraints`: guarded by
Python truthiness of the list, and each id only constrained when it is a
key of `squad_vars` (i.e. a player id). -/
def exclusionConstraints (ids : List Nat) (excl : List Nat) : List LinConstraint :=
  if excl.isEmpty then []
  else (excl.filter (fun i => i ∈ ids)).map
    (fun i => ⟨[(1, LpVar.squad i)], Cmp.eq, 0⟩)

/-- The `required_players` block of `_add_squad_constraints`. -/
def requirementConstraints (ids : List Nat) (req : List Nat) : List LinConstraint :=
  if req.isEmpty then []
  else (req.filter (fun i => i ∈ ids)).map
    (fun i => ⟨[(1, LpVar.squad i)], Cmp.eq, 1⟩)

/-- Formation block: the specific catalog bounds when
`constraints.formation` is set and found in `FORMATION_CONSTRAINTS`,
otherwise the generic 1 GK / 3–5 DEF / 2–5 MID / 1–3 FWD bounds. -/
def formationBlock (players : List PlayerData) (cons : OptimizationConstraints) :
    List LinConstraint :=
  let startTerms := fun pos =>
    (playersOfPosition players pos).map (fun p => ((1 : ℚ), LpVar.starting p.id))
  let fb := match cons.formation with
    | none => none
    | some nm => FORMATION_CONSTRAINTS.lookup nm
  match fb with
  | some fc =>
    [⟨startTerms 1, Cmp.eq, (fc.goalkeepers : ℚ)⟩,
     ⟨startTerms 2, Cmp.ge, (fc.defenders.1 : ℚ)⟩,
     ⟨startTerms 2, Cmp.le, (fc.defenders.2 : ℚ)⟩,
     ⟨startTerms 3, Cmp.ge, (fc.midfielders.1 : ℚ)⟩,
     ⟨startTerms 3, Cmp.le, (fc.midfielders.2 : ℚ)⟩,
     ⟨startTerms 4, Cmp.ge, (fc.forwards.1 : ℚ)⟩,
     ⟨startTerms 4, Cmp.le, (fc.forwards.2 : ℚ)⟩]
  | none =>
    [⟨startTerms 1, Cmp.eq, 1⟩,
     ⟨startTerms 2, Cmp.ge, 3⟩,
     ⟨startTerms 2, Cmp.le, 5⟩,
     ⟨startTerms 3, Cmp.ge, 2⟩,
     ⟨startTerms 3, Cmp.le, 5⟩,
     ⟨startTerms 4, Cmp.ge, 1⟩,
     ⟨startTerms 4, Cmp.le, 3⟩]

/-- Team ids in order of first appearance (Python dict insertion order
in the `players_by_team` grouping). -/
def teamIdsInOrder (players : List PlayerData) : List Nat :=
  (players.map (fun p => p.team_id)).eraseDups

/-- `_add_squad_constraints`, constraint by constraint in source order:
budget, squad size, starting-XI size, captain count, the two linking
constraints per player, the 2/5/5/3 squad quotas (only when
`squad_size == 15`), the formation block, the per-team cap, and the
excluded/required blocks. -/
def addSquadConstraints (players : List PlayerData) (cons : OptimizationConstraints) :
    List LinConstraint :=
  let ids := players.map (fun p => p.id)
  [⟨players.map (fun p => (p.price, LpVar.squad p.id)), Cmp.le, cons.budget⟩,
   ⟨players.map (fun p => ((1 : ℚ), LpVar.squad p.id)), Cmp.eq, (cons.squad_size : ℚ)⟩,
   ⟨players.map (fun p => ((1 : ℚ), LpVar.starting p.id)), Cmp.eq, (cons.starting_xi_size : ℚ)⟩,
   ⟨players.map (fun p => ((1 : ℚ), LpVar.captain p.id)), Cmp.eq, 1⟩] ++
  players.flatMap (fun p =>
    [⟨[(1, LpVar.starting p.id), (-1, LpVar.squad p.id)], Cmp.le, 0⟩,
     ⟨[(1, LpVar.captain p.id), (-1, LpVar.starting p.id)], Cmp.le, 0⟩]) ++
  (if cons.squad_size = 15 then
    [⟨(playersOfPosition players 1).map (fun p => ((1 : ℚ), LpVar.squad p.id)), Cmp.eq, 2⟩,
     ⟨(playersOfPosition players 2).map (fun p => ((1 : ℚ), LpVar.squad p.id)), Cmp.eq, 5⟩,
     ⟨(playersOfPosition players 3).map (fun p => ((1 : ℚ), LpVar.squad p.id)), Cmp.eq, 5⟩,
     ⟨(playersOfPosition players 4).map (fun p => ((1 : ℚ), LpVar.squad p.id)), Cmp.eq, 3⟩]
   else []) ++
  formationBlock players cons ++
  (teamIdsInOrder players).map (fun t =>
    ⟨(players.filter (fun p => p.team_id = t)).map (fun p => ((1 : ℚ), LpVar.squad p.id)),
     Cmp.le, (cons.max_players_per_team : ℚ)⟩) ++
  exclusionConstraints ids cons.excluded_players ++
  requirementConstraints ids cons.required_players

/-- The full integer program handed to the solver: decision variables,
objective and constraint list. -/
structure Problem where
  vars : List LpVar
  objective : List (ℚ × LpVar)
  constraints : List LinConstraint
  deriving DecidableEq, Repr

/-- Problem construction performed by `optimize_squad` before solving. -/
def buildProblem (players : List PlayerData) (cons : OptimizationConstraints) : Problem :=
  ⟨players.flatMap (fun p => [LpVar.squad p.id, LpVar.starting p.id, LpVar.captain p.id]),
   objectiveTerms players cons,
   addSquadConstraints players cons⟩

/-- pulp solver status values. -/
inductive LpStatus where
  | notSolved
  | optimal
  | infeasible
  | unbounded
  | undefined
  deriving DecidableEq, Repr

/-- `pulp.LpStatus[...]` display names. -/
def lpStatusName : LpStatus → String
  | LpStatus.notSolved => "Not Solved"
  | LpStatus.optimal => "Optimal"
  | LpStatus.infeasible => "Infeasible"
  | LpStatus.unbounded => "Unbounded"
  | LpStatus.undefined => "Undefined"

/-- What the external CBC solver reports back: a status and, for each
binary variable family, whether its value is 1 (`varValue == 1`). -/
structure SolverOutcome where
  status : LpStatus
  squadVal : Nat → Bool
  startingVal : Nat → Bool
  captainVal : Nat → Bool

/-- Error channel of the optimizer calls.  `valueError` is the only
kind the code ever raises.  The remaining constructors are modelled
from the spec: they name the structured error taxonomy the spec
requires (`InvalidConstraintError`, `InfeasibleConstraintsError`,
`EmptyCandidateSetError`), none of which exist in the source; they are
present solely so claims about those kinds can be stated and compared
against what the code actually produces. -/
inductive OptErr where
  | valueError (msg : String)
  | invalidConstraintError
  | infeasibleConstraintsError
  | emptyCandidateSetError
  deriving DecidableEq, Repr

deriving instance DecidableEq for Except

/-- `_generate_alternatives`: always the empty list in the source
("For now, return empty alternatives").  The element type is
immaterial since no element is ever produced. -/
def generateAlternatives (_players : List PlayerData)
    (_cons : OptimizationConstraints) : List String := []

/-- `_determine_formation`: defender-midfielder-forward counts of the
starting lineup rendered as a string. -/
def determineFormation (starting_players : List PlayerData) : String :=
  let dCount := starting_players.countP (fun p => p.position = 2)
  let mCount := starting_players.countP (fun p => p.position = 3)
  let fCount := starting_players.countP (fun p => p.position = 4)
  toString dCount ++ "-" ++ toString mCount ++ "-" ++ toString fCount

/-- Optimizer result extracted from the solved variables
(`_extract_solution`), with the code's 1-decimal rounding of
`total_cost` and `predicted_points`. -/
structure Solution where
  squad : List PlayerData
  starting_xi : List PlayerData
  bench : List PlayerData
  formation : String
  total_cost : ℚ
  predicted_points : ℚ
  captain_id : Option Nat
  alternatives : List String
  deriving DecidableEq, Repr

/-- `_extract_solution`: squad members are the players whose squad
variable is 1, split into starters and bench; the captain id is the
(last-processed) squad member with all three variables set; cost sums
squad prices; predicted points sum `predicted·probability` over the
starters plus the same product again for the captain. -/
def extractSolution (players : List PlayerData) (a : SolverOutcome)
    (cons : OptimizationConstraints) : Solution :=
  let squad := players.filter (fun p => a.squadVal p.id)
  let starting := players.filter (fun p => a.squadVal p.id && a.startingVal p.id)
  let bench := players.filter (fun p => a.squadVal p.id && !a.startingVal p.id)
  let capts := players.filter
    (fun p => a.squadVal p.id && a.startingVal p.id && a.captainVal p.id)
  let total_cost := (squad.map (fun p => p.price)).sum
  let total_predicted :=
    (starting.map (fun p => p.predicted_points * p.start_probability)).sum +
    (capts.map (fun p => p.predicted_points * p.start_probability)).sum
  { squad := squad
    starting_xi := starting
    bench := bench
    formation := determineFormation starting
    total_cost := round1 total_cost
    predicted_points := round1 total_predicted
    captain_id := (capts.map (fun p => p.id)).getLast?
    alternatives := (generateAlternatives players cons).take 3 }

/-- `optimize_squad`: build the program, hand it to the solver, extract
the solution when the status is optimal, otherwise raise
`ValueError(f"Optimization failed with status: ...")`. -/
def optimizeSquad (players : List PlayerData) (cons : OptimizationConstraints)
    (solve : Problem → SolverOutcome) : Except OptErr Solution :=
  let out := solve (buildProblem players cons)
  if out.status = LpStatus.optimal then
    Except.ok (extractSolution players out cons)
  else
    Except.error (OptErr.valueError
      ("Optimization failed with status: " ++ lpStatusName out.status))

/-- Accumulator and result shape of `find_best_formation`: the tracked
best formation / points / result and the per-formation results dict in
insertion order (`best_points` is the loop variable initialised to 0). -/
structure FormationSearchOutput where
  best_formation : Option String
  best_points : ℚ
  best_result : Option Solution
  all_formations : List (String × Solution)
  deriving Repr

/-- Loop body of `find_best_formation`: per catalog formation, a failed
solve is logged and skipped; a successful one is recorded in
`formation_results` and replaces the incumbent best exactly when its
`predicted_points` strictly exceeds `best_points`. -/
def searchLoop : List (String × Except OptErr Solution) → FormationSearchOutput →
    FormationSearchOutput
  | [], acc => acc
  | (_, Except.error _) :: rest, acc => searchLoop rest acc
  | (nm, Except.ok sol) :: rest, acc =>
    let acc1 := { acc with all_formations := acc.all_formations ++ [(nm, sol)] }
    let acc2 :=
      if acc1.best_points < sol.predicted_points then
        { acc1 with
            best_formation := some nm
            best_points := sol.predicted_points
            best_result := some sol }
      else acc1
    searchLoop rest acc2

/-- `find_best_formation`: re-run `optimize_squad` once per catalog
formation (constraints copied with the formation field replaced) and
select with the strict-improvement rule. -/
def findBestFormation (players : List PlayerData) (cons : OptimizationConstraints)
    (solve : Problem → SolverOutcome) : FormationSearchOutput :=
  searchLoop
    (FORMATION_CONSTRAINTS.map (fun nc =>
      (nc.1, optimizeSquad players { cons with formation := some nc.1 } solve)))
    ⟨none, 0, none, []⟩

/-- Projection of a named optimizer outcome to its successful result. -/
def okPair (x : String × Except OptErr Solution) : Option (String × Solution) :=
  match x.2 with
  | Except.ok s => some (x.1, s)
  | Except.error _ => none

/-- The successful per-formation results of `find_best_formation`, in
catalog order, paired with their formation names. -/
def formationSuccesses (players : List PlayerData) (cons : OptimizationConstraints)
    (solve : Problem → SolverOutcome) : List (String × Solution) :=
  (FORMATION_CONSTRAINTS.map (fun nc =>
    (nc.1, optimizeSquad players { cons with formation := some nc.1 } solve))).filterMap
    okPair

/-- One entry of the captain ranking built by
`optimize_captain_choice`, with the code's per-field rounding. -/
structure CaptainOption where
  player_id : Nat
  name : String
  position : Nat
  expected_points : ℚ
  risk_adjusted_points : ℚ
  start_probability : ℚ
  base_points : ℚ
  variance : ℚ
  deriving DecidableEq, Repr

/-- Result shape of `optimize_captain_choice`.  The code either returns
the normal ranking dict or the literal dict `{"error": ...}`; the
`raised` constructor is modelled from the spec (which demands a raised
`EmptyCandidateSetError`) purely so that contract can be stated — the
code never produces it. -/
inductive CaptainChoiceResult where
  | errorDict (msg : String)
  | raised (e : OptErr)
  | ok (recommended : CaptainOption) (top_options : List CaptainOption)
      (all_options : List CaptainOption)
  deriving DecidableEq, Repr

/-- Per-player captain entry: `expected = predicted·probability·2`,
`risk_adjusted = expected − variance·0.1`, fields rounded as in
`_player_to_dict`-style dict construction. -/
def mkCaptainOption (p : PlayerData) : CaptainOption :=
  let expected := p.predicted_points * p.start_probability * 2
  let adjusted := expected - p.variance * (1/10)
  { player_id := p.id
    name := p.name
    position := p.position
    expected_points := round1 expected
    risk_adjusted_points := round1 adjusted
    start_probability := round2 p.start_probability
    base_points := round1 p.predicted_points
    variance := round2 p.variance }

/-- `optimize_captain_choice`: filter the pool to the given squad ids,
return the error dict when nothing matches, otherwise rank by
descending (rounded) risk-adjusted points — a stable descending sort,
as Python's `list.sort(key=..., reverse=True)`. -/
def optimizeCaptainChoice (players : List PlayerData) (current_squad : List Nat) :
    CaptainChoiceResult :=
  let squad_players := players.filter (fun p => p.id ∈ current_squad)
  if squad_players.isEmpty then
    CaptainChoiceResult.errorDict "No players in current squad"
  else
    let captain_options := squad_players.map mkCaptainOption
    let sorted := List.insertionSort
      (fun a b => b.risk_adjusted_points ≤ a.risk_adjusted_points) captain_options
    match sorted.head? with
    | some r => CaptainChoiceResult.ok r (sorted.take 5) sorted
    | none => CaptainChoiceResult.errorDict "No players in current squad"

/-- `TransferOption` dataclass of `transfer_planner.py`. -/
structure TransferOption where
  player_out_id : Nat
  player_in_id : Nat
  cost : ℤ
  expected_gain : ℚ
  price_change : ℚ
  gameweek : Nat
  deriving DecidableEq, Repr

/-- `GameweekPlan` dataclass. -/
structure GameweekPlan where
  gameweek : Nat
  transfers : List TransferOption
  expected_points : ℚ
  squad_value : ℚ
  free_transfers : Nat
  total_transfer_cost : ℤ
  deriving DecidableEq, Repr

/-- `ChipStrategy` dataclass. -/
structure ChipStrategy where
  chip_type : String
  recommended_gameweek : Option Nat
  expected_benefit : ℚ
  confidence : ℚ
  deriving DecidableEq, Repr

/-- The rolling planner state threaded through `plan_transfers`. -/
structure PlannerState where
  squad : List PlayerData
  gameweek : Nat
  free_transfers : Nat
  squad_value : ℚ
  chips_used : List String

/-- `_find_transfer_options`: every same-position pool player not in
the squad is a candidate replacement for every squad member, with
`expected_gain` the difference of `predicted·probability`; candidates
are then stably sorted by descending expected gain. -/
def findTransferOptions (current_squad all_players : List PlayerData)
    (gameweek : Nat) : List TransferOption :=
  let squad_player_ids := current_squad.map (fun p => p.id)
  let available := all_players.filter (fun p => ¬ p.id ∈ squad_player_ids)
  let options := current_squad.flatMap (fun cur =>
    (available.filter (fun p => p.position = cur.position)).map (fun rep =>
      { player_out_id := cur.id
        player_in_id := rep.id
        cost := 4
        expected_gain := rep.predicted_points * rep.start_probability -
          cur.predicted_points * cur.start_probability
        price_change := 0
        gameweek := gameweek }))
  List.insertionSort (fun a b => b.expected_gain ≤ a.expected_gain) options

/-- Greedy loop of `_select_transfers`: stop at `max_transfers`
accepted; skip options reusing an out/in id; accept when
`expected_gain` strictly exceeds the marginal cost (4 once the
free-transfer allowance is used up, else 0). -/
def selectGo (maxT freeT : Nat) :
    List TransferOption → Nat → List Nat → List Nat → List TransferOption
  | [], _, _, _ => []
  | o :: rest, numSel, usedOut, usedIn =>
    if maxT ≤ numSel then []
    else if o.player_out_id ∈ usedOut ∨ o.player_in_id ∈ usedIn then
      selectGo maxT freeT rest numSel usedOut usedIn
    else if (if freeT ≤ numSel then (4 : ℚ) else 0) < o.expected_gain then
      o :: selectGo maxT freeT rest (numSel + 1)
        (o.player_out_id :: usedOut) (o.player_in_id :: usedIn)
    else selectGo maxT freeT rest numSel usedOut usedIn

/-- `_select_transfers`. -/
def selectTransfers (transfer_options : List TransferOption)
    (max_transfers free_transfers : Nat) : List TransferOption :=
  selectGo max_transfers free_transfers transfer_options 0 [] []

/-- `_apply_transfers`: drops the outgoing players from the squad.  The
source never inserts the incoming players (its own comment defers that
to "a full implementation"). -/
def applyTransfers (current_squad : List PlayerData)
    (transfers : List TransferOption) : List PlayerData :=
  let players_out := transfers.map (fun t => t.player_out_id)
  current_squad.filter (fun p => ¬ p.id ∈ players_out)

/-- First-maximum of a nonempty list under the
`predicted·probability` key, as Python's `max(xs, key=...)`. -/
def bestByStartValue (p0 : PlayerData) (rest : List PlayerData) : PlayerData :=
  rest.foldl (fun b x =>
    if b.predicted_points * b.start_probability <
        x.predicted_points * x.start_probability then x else b) p0

/-- `_calculate_squad_expected_points`: stable-sort the squad by
descending `predicted_points` (not by the product), take the first 11,
sum `predicted·probability` over them, and add the best
`predicted·probability` product among those 11 again as captain bonus. -/
def calculateSquadExpectedPoints (squad : List PlayerData) : ℚ :=
  let sorted_squad :=
    List.insertionSort (fun a b => b.predicted_points ≤ a.predicted_points) squad
  let starting_xi := sorted_squad.take 11
  let total := (starting_xi.map
    (fun p => p.predicted_points * p.start_probability)).sum
  match starting_xi with
  | [] => total
  | p0 :: rest =>
    total + (bestByStartValue p0 rest).predicted_points *
      (bestByStartValue p0 rest).start_probability

/-- `_plan_single_gameweek` (the `available_chips` argument is accepted
and unused, as in the source). -/
def planSingleGameweek (state : PlannerState) (all_players : List PlayerData)
    (gameweek : Nat) (max_transfers : Nat)
    (_available_chips : List (String × Bool)) : GameweekPlan :=
  let transfer_options := findTransferOptions state.squad all_players gameweek
  let selected := selectTransfers transfer_options max_transfers state.free_transfers
  let new_squad := applyTransfers state.squad selected
  let expected := calculateSquadExpectedPoints new_squad
  { gameweek := gameweek
    transfers := selected
    expected_points := expected
    squad_value := (new_squad.map (fun p => p.price)).sum
    free_transfers := state.free_transfers
    total_transfer_cost :=
      max 0 (((selected.length : ℤ) - (state.free_transfers : ℤ)) * 4) }

/-- `_update_state`: apply the week's transfers and roll the
free-transfer balance (2 after a no-transfer week, else 1). -/
def updateState (state : PlannerState) (week_plan : GameweekPlan) : PlannerState :=
  { squad := applyTransfers state.squad week_plan.transfers
    gameweek := week_plan.gameweek + 1
    free_transfers := if week_plan.transfers.isEmpty then 2 else 1
    squad_value := week_plan.squad_value
    chips_used := state.chips_used }

/-- The `for week_offset in range(planning_horizon)` loop of
`plan_transfers`, with the target gameweek advancing by one per
period. -/
def planLoop (all_players : List PlayerData) (maxT : Nat)
    (chips : List (String × Bool)) :
    PlannerState → Nat → Nat → List GameweekPlan
  | _, _, 0 => []
  | state, gw, h + 1 =>
    let week_plan := planSingleGameweek state all_players gw maxT chips
    week_plan :: planLoop all_players maxT chips (updateState state week_plan) (gw + 1) h

/-- `_find_best_triple_captain_gameweek`: the per-period expected
captain points are the literal placeholder 12.0, so the loop keeps the
first period and the constant benefit; confidence 0.8. -/
def findBestTripleCaptainGameweek (gameweek_plans : List GameweekPlan)
    (_current_gameweek : Nat) : ChipStrategy :=
  let best := gameweek_plans.foldl
    (fun (b : Option Nat × ℚ) plan =>
      let expected_captain_points : ℚ := 12
      let triple_captain_benefit := expected_captain_points
      if b.2 < triple_captain_benefit then (some plan.gameweek, triple_captain_benefit)
      else b)
    (none, 0)
  ⟨"triple_captain", best.1, best.2, 4/5⟩

/-- `_find_best_bench_boost_gameweek`: placeholder recommendation. -/
def findBestBenchBoostGameweek (_gameweek_plans : List GameweekPlan)
    (current_gameweek : Nat) : ChipStrategy :=
  ⟨"bench_boost", some (current_gameweek + 2), 8, 3/5⟩

/-- `_analyze_wildcard_timing`. -/
def analyzeWildcardTiming (gameweek_plans : List GameweekPlan)
    (current_gameweek : Nat) (planning_horizon : Nat) : ChipStrategy :=
  let total_transfers_needed :=
    (gameweek_plans.map (fun plan => plan.transfers.length)).sum
  if planning_horizon * 2 < total_transfers_needed then
    ⟨"wildcard", some (current_gameweek + 1),
      (total_transfers_needed : ℚ) * 4 - 4, 9/10⟩
  else
    ⟨"wildcard", none, 0, 3/10⟩

/-- `_analyze_free_hit_timing`. -/
def analyzeFreeHitTiming (_gameweek_plans : List GameweekPlan)
    (_current_gameweek : Nat) : ChipStrategy :=
  ⟨"free_hit", none, 0, 1/2⟩

/-- `_analyze_chip_usage`: each chip analysed only when available. -/
def analyzeChipUsage (gameweek_plans : List GameweekPlan)
    (available_chips : List (String × Bool)) (current_gameweek : Nat)
    (planning_horizon : Nat) : List (String × ChipStrategy) :=
  (if (available_chips.lookup "triple_captain").getD false then
    [("triple_captain", findBestTripleCaptainGameweek gameweek_plans current_gameweek)]
   else []) ++
  (if (available_chips.lookup "bench_boost").getD false then
    [("bench_boost", findBestBenchBoostGameweek gameweek_plans current_gameweek)]
   else []) ++
  (if (available_chips.lookup "wildcard").getD false then
    [("wildcard", analyzeWildcardTiming gameweek_plans current_gameweek planning_horizon)]
   else []) ++
  (if (available_chips.lookup "free_hit").getD false then
    [("free_hit", analyzeFreeHitTiming gameweek_plans current_gameweek)]
   else [])

/-- Aggregate result of `plan_transfers` (`GameweekPlan` values are
kept in place of their dict serialisations). -/
structure TransferPlanResult where
  gameweek_plans : List GameweekPlan
  chip_recommendations : List (String × ChipStrategy)
  total_expected_gain : ℚ
  total_transfer_costs : ℤ
  planning_horizon : Nat
  deriving Repr

/-- `plan_transfers`: initial state with one free transfer, the
sequential per-gameweek loop, chip analysis, and the net-gain totals. -/
def planTransfers (current_squad all_players : List PlayerData)
    (planning_horizon max_transfers_per_week : Nat)
    (available_chips : Option (List (String × Bool))) (current_gameweek : Nat) :
    TransferPlanResult :=
  let chips := available_chips.getD
    [("wildcard", false), ("bench_boost", false),
     ("triple_captain", false), ("free_hit", false)]
  let current_state : PlannerState :=
    { squad := current_squad
      gameweek := current_gameweek
      free_transfers := 1
      squad_value := (current_squad.map (fun p => p.price)).sum
      chips_used := [] }
  let gameweek_plans := planLoop all_players max_transfers_per_week chips
    current_state current_gameweek planning_horizon
  let chip_recommendations := analyzeChipUsage gameweek_plans chips
    current_gameweek planning_horizon
  let total_expected_gain :=
    (gameweek_plans.map (fun plan => plan.expected_points)).sum
  let total_transfer_costs : ℤ :=
    (gameweek_plans.map (fun plan => plan.total_transfer_cost)).sum
  { gameweek_plans := gameweek_plans
    chip_recommendations := chip_recommendations
    total_expected_gain := round1 (total_expected_gain - (total_transfer_costs : ℚ))
    total_transfer_costs := total_transfer_costs
    planning_horizon := planning_horizon }

/-- Modelled from the spec: the per-period score the spec describes for
the Transfer Planner — the top-11 squad members ranked by the product
`predicted·probability`, summed, plus a captain bonus equal to the
largest such product among those 11. -/
def specTop11Score (squad : List PlayerData) : ℚ :=
  let ranked := List.insertionSort (fun a b =>
    b.predicted_points * b.start_probability ≤
      a.predicted_points * a.start_probability) squad
  let top := ranked.take 11
  let prods := top.map (fun p => p.predicted_points * p.start_probability)
  prods.sum + prods.foldl max 0

/-- Modelled from the spec: the formation-selection rule the spec
states — highest `predicted_points`, ties broken by lower `total_cost`,
remaining ties by catalog order (the successes list is in catalog
order). -/
def specBestFormation (successes : List (String × Solution)) : Option String :=
  (successes.foldl (fun (b : Option (String × Solution)) x =>
    match b with
    | none => some x
    | some y =>
      if y.2.predicted_points < x.2.predicted_points ∨
          (x.2.predicted_points = y.2.predicted_points ∧
            x.2.total_cost < y.2.total_cost) then some x
      else some y) none).map (fun y => y.1)

/-- Shorthand for building a concrete `PlayerData` value. -/
def mkP (id pos team : Nat) (price pp sp : ℚ) : PlayerData :=
  { id := id, position := pos, team_id := team, price := price,
    predicted_points := pp, start_probability := sp, name := "P" }

/-- Twelve-player squad separating the two rankings: one high-predicted
player who never starts (probability 0) and eleven modest certain
starters. -/
def squad12 : List PlayerData :=
  mkP 100 3 1 5 2 0 ::
    (List.range 11).map (fun i => mkP (i + 1) 3 1 5 1 1)

/-- One-player squad for exercising `_apply_transfers`. -/
def squadC1 : List PlayerData := [mkP 1 3 1 5 4 1]

/-- A transfer moving player 1 out and player 2 in. -/
def tC1 : TransferOption :=
  { player_out_id := 1, player_in_id := 2, cost := 4,
    expected_gain := 5, price_change := 0, gameweek := 1 }

/-- A feasible 15-player pool: 2 GK / 5 DEF / 5 MID / 3 FWD, three
players per team across five teams, unit prices. -/
def pool2 : List PlayerData :=
  [mkP 1 1 2 1 10 1, mkP 2 1 3 1 1 1,
   mkP 3 2 4 1 10 1, mkP 4 2 5 1 10 1, mkP 5 2 1 1 10 1,
   mkP 6 2 2 1 10 1, mkP 7 2 3 1 1 1,
   mkP 8 3 4 1 11 1, mkP 9 3 5 1 10 1, mkP 10 3 1 1 10 1,
   mkP 11 3 2 1 10 1, mkP 12 3 3 1 1 1,
   mkP 13 4 4 1 10 1, mkP 14 4 5 1 10 1, mkP 15 4 1 1 1 1]

/-- Constraints whose excluded and required sets overlap on id 999,
an id absent from `pool2`. -/
def cons2 : OptimizationConstraints :=
  { excluded_players := [999], required_players := [999] }

/-- The optimal solution the solver finds for `pool2`: all fifteen in
the squad, the eleven high scorers starting, player 8 captain. -/
def out2 : SolverOutcome :=
  { status := LpStatus.optimal
    squadVal := fun id => id ∈ [1, 2, 3, 4, 5, 6, 7, 8, 9, 10, 11, 12, 13, 14, 15]
    startingVal := fun id => id ∈ [1, 3, 4, 5, 6, 8, 9, 10, 11, 13, 14]
    captainVal := fun id => id = 8 }

/-- Solver behaviour on the `pool2` instance. -/
def solve2 : Problem → SolverOutcome := fun _ => out2

/-- Two six-priced players: with budget 10 and squad size 15 the
program is infeasible. -/
def pool4 : List PlayerData := [mkP 1 1 1 6 5 1, mkP 2 2 2 6 5 1]

/-- Budget 10 with default squad shape. -/
def cons4 : OptimizationConstraints := { budget := 10 }

/-- A solver run that proves infeasibility. -/
def solveInfeasible : Problem → SolverOutcome :=
  fun _ => ⟨LpStatus.infeasible, fun _ => false, fun _ => false, fun _ => false⟩

/-- Twelve-player pool (1 GK, 3 DEF, 5 MID, 3 FWD) on twelve distinct
teams; every player predicts 2 points with certainty; midfielder 9
costs 4 and forward 12 costs 6, everyone else 2. -/
def pool6 : List PlayerData :=
  [mkP 1 1 1 2 2 1,
   mkP 2 2 2 2 2 1, mkP 3 2 3 2 2 1, mkP 4 2 4 2 2 1,
   mkP 5 3 5 2 2 1, mkP 6 3 6 2 2 1, mkP 7 3 7 2 2 1,
   mkP 8 3 8 2 2 1, mkP 9 3 9 4 2 1,
   mkP 10 4 10 2 2 1, mkP 11 4 11 2 2 1, mkP 12 4 12 6 2 1]

/-- Eleven-man squad search over `pool6` (starting XI equals squad). -/
def cons6 : OptimizationConstraints := { squad_size := 11 }

/-- Optimal 3-4-3 pick over `pool6`: everyone but midfielder 9. -/
def out6A : SolverOutcome :=
  { status := LpStatus.optimal
    squadVal := fun id => id ∈ [1, 2, 3, 4, 5, 6, 7, 8, 10, 11, 12]
    startingVal := fun id => id ∈ [1, 2, 3, 4, 5, 6, 7, 8, 10, 11, 12]
    captainVal := fun id => id = 1 }

/-- Optimal 3-5-2 pick over `pool6`: everyone but forward 12. -/
def out6B : SolverOutcome :=
  { status := LpStatus.optimal
    squadVal := fun id => id ∈ [1, 2, 3, 4, 5, 6, 7, 8, 9, 10, 11]
    startingVal := fun id => id ∈ [1, 2, 3, 4, 5, 6, 7, 8, 9, 10, 11]
    captainVal := fun id => id = 1 }

/-- Solver behaviour on the `pool6` instance: optimal solutions for the
two three-defender formations, infeasibility for the rest (the pool has
only three defenders). -/
def solve6 : Problem → SolverOutcome := fun prob =>
  if prob = buildProblem pool6 { cons6 with formation := some "3-4-3" } then out6A
  else if prob = buildProblem pool6 { cons6 with formation := some "3-5-2" } then out6B
  else ⟨LpStatus.infeasible, fun _ => false, fun _ => false, fun _ => false⟩

/-- A pool whose single player matches no id of the squad `[2]`. -/
def players7 : List PlayerData := [mkP 1 3 1 5 4 1]

/-- Sorted candidate list with gains 6 and 3 (spec Scenario D shape). -/
def opts8 : List TransferOption :=
  [{ player_out_id := 1, player_in_id := 101, cost := 4,
     expected_gain := 6, price_change := 0, gameweek := 1 },
   { player_out_id := 2, player_in_id := 102, cost := 4,
     expected_gain := 3, price_change := 0, gameweek := 1 }]

/-- One-player pool for the unmatched-id invariance witness. -/
def poolW : List PlayerData := [mkP 1 1 1 5 5 1]


/-- Helper: once the tracked triple-captain benefit is the constant 12,
the rest of the fold changes nothing (the strict comparison `12 < 12`
never fires). -/
lemma tcFoldConst (rest : List GameweekPlan) (g : Nat) :
    rest.foldl (fun (b : Option Nat × ℚ) plan =>
      if b.2 < (12 : ℚ) then (some plan.gameweek, (12 : ℚ)) else b)
      (some g, (12 : ℚ)) = (some g, 12) := by
  induction rest with
  | nil => rfl
  | cons a t ih => simpa using ih

/-- C1: `_apply_transfers` only removes the outgoing player and never
inserts the incoming one — on a one-player squad with one selected
transfer the resulting squad is empty instead of keeping size 1, so the
squad-size invariant of `plan_transfers` is broken. -/
theorem apply_transfers_remove_only :
    applyTransfers squadC1 [tC1] = [] ∧ squadC1.length = 1 := by
  decide

/-- C5: `_find_best_triple_captain_gameweek` uses the fixed placeholder
12.0 as every period's expected captain points, so for any nonempty
plan list it recommends the first period with constant benefit 12 and
confidence 0.8, regardless of the periods' actual squads. -/
theorem triple_captain_placeholder (plans : List GameweekPlan) (gw : Nat)
    (p : GameweekPlan) (rest : List GameweekPlan) (h : plans = p :: rest) :
    findBestTripleCaptainGameweek plans gw =
      ⟨"triple_captain", some p.gameweek, 12, 4/5⟩ := by
  subst h
  unfold findBestTripleCaptainGameweek
  simp only [List.foldl_cons]
  norm_num
  rw [tcFoldConst]
  exact ⟨rfl, rfl⟩

/-- Witness for `triple_captain_placeholder`: two concrete periods —
the recommendation is period 3 with benefit 12 even though the second
period has the higher expected points. -/
theorem triple_captain_placeholder_witness :
    findBestTripleCaptainGameweek
        [⟨3, [], 10, 0, 1, 0⟩, ⟨4, [], 20, 0, 1, 0⟩] 3 =
      ⟨"triple_captain", some 3, 12, 4/5⟩ :=
  triple_captain_placeholder _ 3 ⟨3, [], 10, 0, 1, 0⟩ [⟨4, [], 20, 0, 1, 0⟩] rfl

/-- C7 counterexample: with no pool player matching the squad ids, the
code returns the plain dict `{"error": "No players in current squad"}`
as a normal value; it does not raise an `EmptyCandidateSetError` (no
such error exists in the code). -/
theorem captain_choice_counterexample :
    optimizeCaptainChoice players7 [2] =
      CaptainChoiceResult.errorDict "No players in current squad" ∧
    optimizeCaptainChoice players7 [2] ≠
      CaptainChoiceResult.raised OptErr.emptyCandidateSetError := by
  decide

/-- C7 (amended): whenever no player of the pool matches any squad id,
`optimize_captain_choice` returns the error dictionary
`{"error": "No players in current squad"}` (a normal return value, not
a raised `EmptyCandidateSetError`). -/
theorem captain_choice_unmatched (players : List PlayerData) (squad_ids : List Nat)
    (h : players.filter (fun p => p.id ∈ squad_ids) = []) :
    optimizeCaptainChoice players squad_ids =
      CaptainChoiceResult.errorDict "No players in current squad" := by
  simp [optimizeCaptainChoice, h]

/-- Witness for `captain_choice_unmatched` at a concrete pool/squad. -/
theorem captain_choice_unmatched_witness :
    players7.filter (fun p => p.id ∈ ([2] : List Nat)) = [] ∧
    optimizeCaptainChoice players7 [2] =
      CaptainChoiceResult.errorDict "No players in current squad" :=
  ⟨by decide, captain_choice_unmatched players7 [2] (by decide)⟩

/-- C4 counterexample: on an infeasible instance (two players priced 6,
budget 10, squad size 15) the raised error is the unstructured
`ValueError` with a status message, not a structured
`InfeasibleConstraintsError` kind. -/
theorem infeasible_valueerror_counterexample :
    optimizeSquad pool4 cons4 solveInfeasible =
      Except.error (OptErr.valueError "Optimization failed with status: Infeasible") ∧
    optimizeSquad pool4 cons4 solveInfeasible ≠
      Except.error OptErr.infeasibleConstraintsError := by
  decide

/-- C4 (amended): `optimize_squad` returns a solution exactly when the
solver status is optimal, and otherwise raises a plain
`ValueError("Optimization failed with status: ...")` — no partial
result is returned, but the error is generic (raised for every
non-optimal status), not the structured `InfeasibleConstraintsError`. -/
theorem optimizeSquad_error_policy (players : List PlayerData)
    (cons : OptimizationConstraints) (solve : Problem → SolverOutcome) :
    ((solve (buildProblem players cons)).status = LpStatus.optimal →
      optimizeSquad players cons solve =
        Except.ok (extractSolution players (solve (buildProblem players cons)) cons)) ∧
    ((solve (buildProblem players cons)).status ≠ LpStatus.optimal →
      optimizeSquad players cons solve =
        Except.error (OptErr.valueError ("Optimization failed with status: " ++
          lpStatusName (solve (buildProblem players cons)).status))) := by
  unfold optimizeSquad
  constructor
  · intro h; rw [if_pos h]
  · intro h; rw [if_neg h]

/-- Witness for `optimizeSquad_error_policy` on the infeasible
`pool4` instance. -/
theorem optimizeSquad_error_policy_witness :
    ((solveInfeasible (buildProblem pool4 cons4)).status ≠ LpStatus.optimal) ∧
    optimizeSquad pool4 cons4 solveInfeasible =
      Except.error (OptErr.valueError ("Optimization failed with status: " ++
        lpStatusName (solveInfeasible (buildProblem pool4 cons4)).status)) :=
  ⟨by decide, (optimizeSquad_error_policy pool4 cons4 solveInfeasible).2 (by decide)⟩

/-- C2 counterexample: `cons2` violates the spec's
`excluded_ids ∩ required_ids = ∅` invariant (both contain 999, an id
absent from the pool), yet `optimize_squad` performs no validation: the
call succeeds with an optimal squad instead of rejecting the input with
`InvalidConstraintError`. -/
theorem no_validation_counterexample :
    (999 ∈ cons2.excluded_players ∧ 999 ∈ cons2.required_players) ∧
    (optimizeSquad pool2 cons2 solve2).toOption.isSome = true ∧
    optimizeSquad pool2 cons2 solve2 ≠ Except.error OptErr.invalidConstraintError := by
  decide

/-- C2 (amended): the code validates nothing — no call ever produces an
`InvalidConstraintError` (the kind does not exist in the code), and a
formation string outside the catalog is silently treated as if no
formation had been given (the generic starting-XI bounds), rather than
being rejected. -/
theorem optimizeSquad_no_validation (players : List PlayerData)
    (cons : OptimizationConstraints) (solve : Problem → SolverOutcome) :
    optimizeSquad players cons solve ≠ Except.error OptErr.invalidConstraintError ∧
    (∀ nm, cons.formation = some nm → FORMATION_CONSTRAINTS.lookup nm = none →
      buildProblem players cons = buildProblem players { cons with formation := none }) := by
  constructor
  · unfold optimizeSquad
    by_cases h : (solve (buildProblem players cons)).status = LpStatus.optimal
    · rw [if_pos h]; simp
    · rw [if_neg h]; simp
  · intro nm h1 h2
    simp [buildProblem, addSquadConstraints, objectiveTerms, formationBlock,
      exclusionConstraints, requirementConstraints, h1, h2]

/-- Witness for `optimizeSquad_no_validation`: the out-of-catalog
formation "9-9-9" is accepted and yields the generic bounds. -/
theorem optimizeSquad_no_validation_witness :
    (({ formation := some "9-9-9" } : OptimizationConstraints).formation = some "9-9-9" ∧
      FORMATION_CONSTRAINTS.lookup "9-9-9" = none) ∧
    (optimizeSquad poolW { formation := some "9-9-9" } solveInfeasible ≠
      Except.error OptErr.invalidConstraintError ∧
    buildProblem poolW { formation := some "9-9-9" } =
      buildProblem poolW
        { ({ formation := some "9-9-9" } : OptimizationConstraints) with formation := none }) :=
  ⟨⟨rfl, by decide⟩,
   ⟨(optimizeSquad_no_validation poolW { formation := some "9-9-9" } solveInfeasible).1,
    (optimizeSquad_no_validation poolW { formation := some "9-9-9" } solveInfeasible).2
      "9-9-9" rfl (by decide)⟩⟩

set_option maxRecDepth 4000 in
/-- C3 counterexample: on `squad12` the code scores 11 (its top-11 is
ranked by `predicted_points` alone, so the probability-0 high scorer
displaces a certain starter), while the claimed ranking by the product
`predicted·probability` scores 12. -/
theorem squad_points_ranking_counterexample :
    calculateSquadExpectedPoints squad12 = 11 ∧
    specTop11Score squad12 = 12 ∧ ((11 : ℚ) ≠ 12) := by
  with_unfolding_all decide

/-- Helper: Python's `max(p0 :: rest, key = predicted·probability)`
returns a member of the list whose key dominates every element. -/
lemma bestByStartValue_spec : ∀ (rest : List PlayerData) (p0 : PlayerData),
    bestByStartValue p0 rest ∈ p0 :: rest ∧
    p0.predicted_points * p0.start_probability ≤
      (bestByStartValue p0 rest).predicted_points *
        (bestByStartValue p0 rest).start_probability ∧
    ∀ x ∈ rest, x.predicted_points * x.start_probability ≤
      (bestByStartValue p0 rest).predicted_points *
        (bestByStartValue p0 rest).start_probability := by
  intro rest
  induction rest with
  | nil =>
    intro p0
    refine ⟨List.mem_cons_self _ _, le_refl _, ?_⟩
    intro x hx
    simp at hx
  | cons a t ih =>
    intro p0
    have hstep : bestByStartValue p0 (a :: t) =
        bestByStartValue
          (if p0.predicted_points * p0.start_probability <
              a.predicted_points * a.start_probability then a else p0) t := by
      unfold bestByStartValue
      rw [List.foldl_cons]
    by_cases h : p0.predicted_points * p0.start_probability <
        a.predicted_points * a.start_probability
    · rw [if_pos h] at hstep
      obtain ⟨hmem, hle, hall⟩ := ih a
      rw [hstep]
      refine ⟨?_, ?_, ?_⟩
      · exact List.mem_cons_of_mem _ hmem
      · exact le_trans (le_of_lt h) hle
      · intro x hx
        rcases List.mem_cons.mp hx with hx | hx
        · subst hx; exact hle
        · exact hall x hx
    · rw [if_neg h] at hstep
      obtain ⟨hmem, hle, hall⟩ := ih p0
      rw [hstep]
      refine ⟨?_, ?_, ?_⟩
      · rcases List.mem_cons.mp hmem with hm | hm
        · rw [hm]; exact List.mem_cons_self _ _
        · exact List.mem_cons_of_mem _ (List.mem_cons_of_mem _ hm)
      · exact hle
      · intro x hx
        rcases List.mem_cons.mp hx with hx | hx
        · subst hx; exact le_trans (le_of_not_lt h) hle
        · exact hall x hx

/-- C3 (amended): for every nonempty squad,
`_calculate_squad_expected_points` sums `predicted·probability` over a
block `S` of `min 11 |squad|` squad members whose `predicted_points`
(not the product) dominate the rest of the squad, and adds again the
largest `predicted·probability` product within `S` as captain bonus. -/
theorem calc_points_top11_by_predicted (squad : List PlayerData) (hne : squad ≠ []) :
    ∃ S T c, squad.Perm (S ++ T) ∧
      S.length = min 11 squad.length ∧
      (∀ p ∈ S, ∀ q ∈ T, q.predicted_points ≤ p.predicted_points) ∧
      c ∈ S ∧
      (∀ p ∈ S, p.predicted_points * p.start_probability ≤
        c.predicted_points * c.start_probability) ∧
      calculateSquadExpectedPoints squad =
        (S.map (fun p => p.predicted_points * p.start_probability)).sum +
          c.predicted_points * c.start_probability := by
  haveI htot : IsTotal PlayerData (fun a b => b.predicted_points ≤ a.predicted_points) :=
    ⟨fun a b => le_total b.predicted_points a.predicted_points⟩
  haveI htrans : IsTrans PlayerData (fun a b => b.predicted_points ≤ a.predicted_points) :=
    ⟨fun a b c hab hbc => le_trans hbc hab⟩
  have hsorted : List.Pairwise (fun a b => b.predicted_points ≤ a.predicted_points)
      (List.insertionSort (fun a b => b.predicted_points ≤ a.predicted_points) squad) :=
    List.sorted_insertionSort _ squad
  have hsplit : (List.insertionSort (fun a b => b.predicted_points ≤ a.predicted_points)
        squad).take 11 ++
      (List.insertionSort (fun a b => b.predicted_points ≤ a.predicted_points)
        squad).drop 11 =
      List.insertionSort (fun a b => b.predicted_points ≤ a.predicted_points) squad :=
    List.take_append_drop _ _
  rcases hxi : (List.insertionSort (fun a b => b.predicted_points ≤ a.predicted_points)
      squad).take 11 with _ | ⟨p0, rest⟩
  · exfalso
    have hlen := congrArg List.length hxi
    simp [List.length_take, List.length_insertionSort] at hlen
    exact hne hlen
  · obtain ⟨hcmem, hcle0, hcall⟩ := bestByStartValue_spec rest p0
    refine ⟨p0 :: rest,
      (List.insertionSort (fun a b => b.predicted_points ≤ a.predicted_points)
        squad).drop 11,
      bestByStartValue p0 rest, ?_, ?_, ?_, ?_, ?_, ?_⟩
    · rw [← hxi, hsplit]
      exact (List.perm_insertionSort _ squad).symm
    · rw [← hxi]
      simp [List.length_take, List.length_insertionSort]
    · intro p hp q hq
      rw [← hsplit] at hsorted
      have hcross := (List.pairwise_append.mp hsorted).2.2
      rw [hxi] at hcross
      exact hcross p hp q hq
    · exact hcmem
    · intro p hp
      rcases List.mem_cons.mp hp with hp | hp
      · rw [hp]; exact hcle0
      · exact hcall p hp
    · simp only [calculateSquadExpectedPoints]
      rw [hxi]

/-- Witness for `calc_points_top11_by_predicted` on the concrete
twelve-player squad. -/
theorem calc_points_top11_by_predicted_witness :
    squad12 ≠ [] ∧
    ∃ S T c, squad12.Perm (S ++ T) ∧
      S.length = min 11 squad12.length ∧
      (∀ p ∈ S, ∀ q ∈ T, q.predicted_points ≤ p.predicted_points) ∧
      c ∈ S ∧
      (∀ p ∈ S, p.predicted_points * p.start_probability ≤
        c.predicted_points * c.start_probability) ∧
      calculateSquadExpectedPoints squad12 =
        (S.map (fun p => p.predicted_points * p.start_probability)).sum +
          c.predicted_points * c.start_probability :=
  ⟨by decide, calc_points_top11_by_predicted squad12 (by decide)⟩

/-- Helper: full characterisation of the `find_best_formation` loop.
Starting from any accumulator, either no success beats the incumbent
points (and the tracked best is unchanged), or the tracked best is the
first success that strictly beats everything before it (all earlier
successes are strictly smaller, all later ones no larger) — so on ties
the earliest catalog formation wins and `total_cost` plays no role. -/
lemma searchLoop_spec (l : List (String × Except OptErr Solution)) :
    ∀ acc : FormationSearchOutput,
      ((searchLoop l acc).best_formation = acc.best_formation ∧
        (searchLoop l acc).best_points = acc.best_points ∧
        (searchLoop l acc).best_result = acc.best_result ∧
        (∀ x ∈ l.filterMap okPair, x.2.predicted_points ≤ acc.best_points)) ∨
      (∃ l1 nm sol l2,
        l.filterMap okPair = l1 ++ (nm, sol) :: l2 ∧
        (searchLoop l acc).best_formation = some nm ∧
        (searchLoop l acc).best_points = sol.predicted_points ∧
        (searchLoop l acc).best_result = some sol ∧
        acc.best_points < sol.predicted_points ∧
        (∀ x ∈ l1, x.2.predicted_points < sol.predicted_points) ∧
        (∀ x ∈ l2, x.2.predicted_points ≤ sol.predicted_points)) := by
  induction l with
  | nil =>
    intro acc
    left
    refine ⟨rfl, rfl, rfl, ?_⟩
    intro x hx
    simp [List.filterMap_nil] at hx
  | cons hd tl ih =>
    intro acc
    obtain ⟨nm, e⟩ := hd
    cases e with
    | error err =>
      have hok : okPair (nm, Except.error err) = none := rfl
      have hloop : searchLoop ((nm, Except.error err) :: tl) acc = searchLoop tl acc := rfl
      rw [hloop, List.filterMap_cons, hok]
      exact ih acc
    | ok sol =>
      have hok : okPair (nm, Except.ok sol) = some (nm, sol) := rfl
      rw [List.filterMap_cons, hok]
      by_cases hlt : acc.best_points < sol.predicted_points
      · have hloop : searchLoop ((nm, Except.ok sol) :: tl) acc =
            searchLoop tl ⟨some nm, sol.predicted_points, some sol,
              acc.all_formations ++ [(nm, sol)]⟩ := by
          simp only [searchLoop]
          rw [if_pos hlt]
        rw [hloop]
        rcases ih ⟨some nm, sol.predicted_points, some sol,
            acc.all_formations ++ [(nm, sol)]⟩ with
          ⟨hf, hp, hr, hall⟩ | ⟨l1, nm', sol', l2, heq, hf, hp, hr, hgt, hl1, hl2⟩
        · right
          refine ⟨[], nm, sol, tl.filterMap okPair, rfl, hf, hp, hr, hlt, ?_, ?_⟩
          · intro x hx; simp at hx
          · intro x hx; exact hall x hx
        · right
          refine ⟨(nm, sol) :: l1, nm', sol', l2, by simp [heq], hf, hp, hr,
            lt_trans hlt hgt, ?_, hl2⟩
          intro x hx
          rcases List.mem_cons.mp hx with hx | hx
          · rw [hx]; exact hgt
          · exact hl1 x hx
      · have hloop : searchLoop ((nm, Except.ok sol) :: tl) acc =
            searchLoop tl ⟨acc.best_formation, acc.best_points, acc.best_result,
              acc.all_formations ++ [(nm, sol)]⟩ := by
          simp only [searchLoop]
          rw [if_neg hlt]
        rw [hloop]
        rcases ih ⟨acc.best_formation, acc.best_points, acc.best_result,
            acc.all_formations ++ [(nm, sol)]⟩ with
          ⟨hf, hp, hr, hall⟩ | ⟨l1, nm', sol', l2, heq, hf, hp, hr, hgt, hl1, hl2⟩
        · left
          refine ⟨hf, hp, hr, ?_⟩
          intro x hx
          rcases List.mem_cons.mp hx with hx | hx
          · rw [hx]; exact le_of_not_lt hlt
          · exact hall x hx
        · right
          refine ⟨(nm, sol) :: l1, nm', sol', l2, by simp [heq], hf, hp, hr, hgt, ?_, hl2⟩
          intro x hx
          rcases List.mem_cons.mp hx with hx | hx
          · rw [hx]; exact lt_of_le_of_lt (le_of_not_lt hlt) hgt
          · exact hl1 x hx

/-- C6 (amended): among formations whose solve succeeds,
`find_best_formation` selects the first (catalog order) success whose
`predicted_points` strictly exceeds everything before it: every earlier
success scores strictly less and every later success scores no more —
so ties on `predicted_points` are broken by catalog order alone, never
by `total_cost`, and a formation is selected only when its points
exceed 0 (else `best_formation` stays `None`). -/
theorem findBestFormation_first_strict_max (players : List PlayerData)
    (cons : OptimizationConstraints) (solve : Problem → SolverOutcome) :
    ((findBestFormation players cons solve).best_formation = none ∧
      ∀ x ∈ formationSuccesses players cons solve, x.2.predicted_points ≤ 0) ∨
    (∃ l1 nm sol l2,
      formationSuccesses players cons solve = l1 ++ (nm, sol) :: l2 ∧
      (findBestFormation players cons solve).best_formation = some nm ∧
      (findBestFormation players cons solve).best_result = some sol ∧
      0 < sol.predicted_points ∧
      (∀ x ∈ l1, x.2.predicted_points < sol.predicted_points) ∧
      (∀ x ∈ l2, x.2.predicted_points ≤ sol.predicted_points)) := by
  rcases searchLoop_spec
      (FORMATION_CONSTRAINTS.map (fun nc =>
        (nc.1, optimizeSquad players { cons with formation := some nc.1 } solve)))
      ⟨none, 0, none, []⟩ with
    ⟨hf, _, _, hall⟩ | ⟨l1, nm, sol, l2, heq, hf, _, hr, hgt, hl1, hl2⟩
  · left
    exact ⟨hf, fun x hx => hall x hx⟩
  · right
    exact ⟨l1, nm, sol, l2, heq, hf, hr, hgt, hl1, hl2⟩

set_option maxRecDepth 8000 in
/-- C6 counterexample: over `pool6`, formations 3-4-3 and 3-5-2 both
solve to 24 predicted points but the 3-5-2 squad is cheaper (24 vs 26);
the spec's tie-break picks "3-5-2", yet the code keeps the
catalog-earlier "3-4-3" because ties never consult `total_cost`. -/
theorem formation_tie_cost_counterexample :
    (findBestFormation pool6 cons6 solve6).best_formation = some "3-4-3" ∧
    ((findBestFormation pool6 cons6 solve6).all_formations.lookup "3-4-3").map
        (fun s => (s.predicted_points, s.total_cost)) = some (24, 26) ∧
    ((findBestFormation pool6 cons6 solve6).all_formations.lookup "3-5-2").map
        (fun s => (s.predicted_points, s.total_cost)) = some (24, 24) ∧
    specBestFormation (formationSuccesses pool6 cons6 solve6) = some "3-5-2" ∧
    (some "3-4-3" : Option String) ≠ some "3-5-2" := by
  with_unfolding_all decide

/-- Helper: the greedy selection loop returns a sublist of its input
(accepted options appear in input order, each at most once). -/
lemma selectGo_sublist (maxT freeT : Nat) :
    ∀ (opts : List TransferOption) (n : Nat) (uo ui : List Nat),
      List.Sublist (selectGo maxT freeT opts n uo ui) opts := by
  intro opts
  induction opts with
  | nil => intro n uo ui; simp [selectGo]
  | cons o rest ih =>
    intro n uo ui
    by_cases h1 : maxT ≤ n
    · simp [selectGo, h1]
    · by_cases h2 : o.player_out_id ∈ uo ∨ o.player_in_id ∈ ui
      · simp only [selectGo, if_neg h1, if_pos h2]
        exact (ih n uo ui).cons o
      · by_cases h3 : (if freeT ≤ n then (4 : ℚ) else 0) < o.expected_gain
        · simp only [selectGo, if_neg h1, if_neg h2, if_pos h3]
          exact (ih (n + 1) _ _).cons₂ o
        · simp only [selectGo, if_neg h1, if_neg h2, if_neg h3]
          exact (ih n uo ui).cons o

/-- Helper: the loop never accepts more than `maxT − n` further
options. -/
lemma selectGo_length (maxT freeT : Nat) :
    ∀ (opts : List TransferOption) (n : Nat) (uo ui : List Nat),
      (selectGo maxT freeT opts n uo ui).length ≤ maxT - n := by
  intro opts
  induction opts with
  | nil => intro n uo ui; simp [selectGo]
  | cons o rest ih =>
    intro n uo ui
    by_cases h1 : maxT ≤ n
    · simp [selectGo, h1]
    · by_cases h2 : o.player_out_id ∈ uo ∨ o.player_in_id ∈ ui
      · simp only [selectGo, if_neg h1, if_pos h2]
        exact ih n uo ui
      · by_cases h3 : (if freeT ≤ n then (4 : ℚ) else 0) < o.expected_gain
        · simp only [selectGo, if_neg h1, if_neg h2, if_pos h3, List.length_cons]
          have hrec := ih (n + 1) (o.player_out_id :: uo) (o.player_in_id :: ui)
          omega
        · simp only [selectGo, if_neg h1, if_neg h2, if_neg h3]
          exact ih n uo ui

/-- Helper: every accepted option avoids the already-used out/in ids. -/
lemma selectGo_avoid (maxT freeT : Nat) :
    ∀ (opts : List TransferOption) (n : Nat) (uo ui : List Nat)
      (x : TransferOption), x ∈ selectGo maxT freeT opts n uo ui →
      x.player_out_id ∉ uo ∧ x.player_in_id ∉ ui := by
  intro opts
  induction opts with
  | nil => intro n uo ui x hx; simp [selectGo] at hx
  | cons o rest ih =>
    intro n uo ui x hx
    by_cases h1 : maxT ≤ n
    · simp [selectGo, h1] at hx
    · by_cases h2 : o.player_out_id ∈ uo ∨ o.player_in_id ∈ ui
      · simp only [selectGo, if_neg h1, if_pos h2] at hx
        exact ih n uo ui x hx
      · by_cases h3 : (if freeT ≤ n then (4 : ℚ) else 0) < o.expected_gain
        · simp only [selectGo, if_neg h1, if_neg h2, if_pos h3] at hx
          push_neg at h2
          rcases List.mem_cons.mp hx with hx | hx
          · rw [hx]; exact h2
          · have h := ih (n + 1) _ _ x hx
            exact ⟨fun hm => h.1 (List.mem_cons_of_mem _ hm),
              fun hm => h.2 (List.mem_cons_of_mem _ hm)⟩
        · simp only [selectGo, if_neg h1, if_neg h2, if_neg h3] at hx
          exact ih n uo ui x hx

/-- Helper: the accepted out-ids are pairwise distinct, and so are the
accepted in-ids. -/
lemma selectGo_nodup (maxT freeT : Nat) :
    ∀ (opts : List TransferOption) (n : Nat) (uo ui : List Nat),
      ((selectGo maxT freeT opts n uo ui).map
        (fun t => t.player_out_id)).Nodup ∧
      ((selectGo maxT freeT opts n uo ui).map
        (fun t => t.player_in_id)).Nodup := by
  intro opts
  induction opts with
  | nil => intro n uo ui; simp [selectGo]
  | cons o rest ih =>
    intro n uo ui
    by_cases h1 : maxT ≤ n
    · simp [selectGo, h1]
    · by_cases h2 : o.player_out_id ∈ uo ∨ o.player_in_id ∈ ui
      · simp only [selectGo, if_neg h1, if_pos h2]
        exact ih n uo ui
      · by_cases h3 : (if freeT ≤ n then (4 : ℚ) else 0) < o.expected_gain
        · simp only [selectGo, if_neg h1, if_neg h2, if_pos h3, List.map_cons]
          constructor
          · refine List.nodup_cons.mpr ⟨?_, (ih (n + 1) _ _).1⟩
            intro hmem
            rcases List.mem_map.mp hmem with ⟨y, hy, hyeq⟩
            have := (selectGo_avoid maxT freeT rest (n + 1)
              (o.player_out_id :: uo) (o.player_in_id :: ui) y hy).1
            exact this (hyeq ▸ List.mem_cons_self _ _)
          · refine List.nodup_cons.mpr ⟨?_, (ih (n + 1) _ _).2⟩
            intro hmem
            rcases List.mem_map.mp hmem with ⟨y, hy, hyeq⟩
            have := (selectGo_avoid maxT freeT rest (n + 1)
              (o.player_out_id :: uo) (o.player_in_id :: ui) y hy).2
            exact this (hyeq ▸ List.mem_cons_self _ _)
        · simp only [selectGo, if_neg h1, if_neg h2, if_neg h3]
          exact ih n uo ui

/-- Helper: the k-th accepted option (0-indexed, with `n` already
accepted before the loop) strictly beats the marginal transfer cost in
force at its acceptance: 0 within the free-transfer allowance, else 4. -/
lemma selectGo_gain (maxT freeT : Nat) :
    ∀ (opts : List TransferOption) (n : Nat) (uo ui : List Nat) (k : Nat)
      (x : TransferOption), (selectGo maxT freeT opts n uo ui)[k]? = some x →
      (if freeT ≤ n + k then (4 : ℚ) else 0) < x.expected_gain := by
  intro opts
  induction opts with
  | nil => intro n uo ui k x hx; simp [selectGo] at hx
  | cons o rest ih =>
    intro n uo ui k x hx
    by_cases h1 : maxT ≤ n
    · simp only [selectGo, if_pos h1] at hx
      simp at hx
    · by_cases h2 : o.player_out_id ∈ uo ∨ o.player_in_id ∈ ui
      · simp only [selectGo, if_neg h1, if_pos h2] at hx
        exact ih n uo ui k x hx
      · by_cases h3 : (if freeT ≤ n then (4 : ℚ) else 0) < o.expected_gain
        · simp only [selectGo, if_neg h1, if_neg h2, if_pos h3] at hx
          match k with
          | 0 =>
            rw [List.getElem?_cons_zero] at hx
            have hxo : x = o := by injection hx with h; exact h.symm
            rw [hxo, Nat.add_zero]
            exact h3
          | k + 1 =>
            rw [List.getElem?_cons_succ] at hx
            have h := ih (n + 1) (o.player_out_id :: uo) (o.player_in_id :: ui) k x hx
            have harith : n + (k + 1) = n + 1 + k := by omega
            rw [harith]
            exact h
        · simp only [selectGo, if_neg h1, if_neg h2, if_neg h3] at hx
          exact ih n uo ui k x hx

/-- C8: on a candidate list sorted by descending expected gain,
`_select_transfers` returns a sublist (hence subset) of at most
`max_transfers` options, with no out-id and no in-id used twice, and
the k-th accepted option (0-indexed) gains strictly more than 0 while
within the free-transfer allowance (`k < free_transfers`) and strictly
more than 4 afterwards. -/
theorem select_transfers_greedy (opts : List TransferOption) (maxT freeT : Nat)
    (_hsorted : opts.Pairwise (fun a b => b.expected_gain ≤ a.expected_gain)) :
    List.Sublist (selectTransfers opts maxT freeT) opts ∧
    (selectTransfers opts maxT freeT).length ≤ maxT ∧
    ((selectTransfers opts maxT freeT).map (fun t => t.player_out_id)).Nodup ∧
    ((selectTransfers opts maxT freeT).map (fun t => t.player_in_id)).Nodup ∧
    ∀ (k : Nat) (x : TransferOption), (selectTransfers opts maxT freeT)[k]? = some x →
      (k < freeT → 0 < x.expected_gain) ∧ (freeT ≤ k → 4 < x.expected_gain) := by
  unfold selectTransfers
  refine ⟨selectGo_sublist maxT freeT opts 0 [] [], ?_,
    (selectGo_nodup maxT freeT opts 0 [] []).1,
    (selectGo_nodup maxT freeT opts 0 [] []).2, ?_⟩
  · have h := selectGo_length maxT freeT opts 0 [] []
    omega
  · intro k x hx
    have h := selectGo_gain maxT freeT opts 0 [] [] k x hx
    rw [Nat.zero_add] at h
    constructor
    · intro hklt
      rw [if_neg (by omega)] at h
      exact h
    · intro hge
      rw [if_pos hge] at h
      exact h

/-- Witness for `select_transfers_greedy` on the sorted two-candidate
list with gains 6 and 3, one free transfer, cap 2 (the second candidate
is rejected because 3 does not exceed the 4-point marginal cost). -/
theorem select_transfers_greedy_witness :
    opts8.Pairwise (fun a b => b.expected_gain ≤ a.expected_gain) ∧
    (List.Sublist (selectTransfers opts8 2 1) opts8 ∧
     (selectTransfers opts8 2 1).length ≤ 2 ∧
     ((selectTransfers opts8 2 1).map (fun t => t.player_out_id)).Nodup ∧
     ((selectTransfers opts8 2 1).map (fun t => t.player_in_id)).Nodup ∧
     ∀ (k : Nat) (x : TransferOption), (selectTransfers opts8 2 1)[k]? = some x →
       (k < 1 → 0 < x.expected_gain) ∧ (1 ≤ k → 4 < x.expected_gain)) :=
  ⟨by decide, select_transfers_greedy opts8 2 1 (by decide)⟩

/-- Helper: the first plan the loop produces reports the incoming
state's free-transfer balance. -/
lemma planLoop_head_free (ap : List PlayerData) (maxT : Nat)
    (chips : List (String × Bool)) :
    ∀ (h : Nat) (st : PlannerState) (gw : Nat) (q : GameweekPlan),
      (planLoop ap maxT chips st gw h)[0]? = some q →
      q.free_transfers = st.free_transfers := by
  intro h st gw q hq
  cases h with
  | zero => simp [planLoop] at hq
  | succ h =>
    simp only [planLoop, List.getElem?_cons_zero] at hq
    injection hq with hq
    rw [← hq]
    rfl

/-- Helper: every plan the loop produces satisfies the transfer-cost
identity, carries a free-transfer balance that is the incoming state's
or one produced by the rollover rule, and is followed by a plan whose
balance obeys `2 if no transfers else 1`. -/
lemma planLoop_spec (ap : List PlayerData) (maxT : Nat)
    (chips : List (String × Bool)) :
    ∀ (h : Nat) (st : PlannerState) (gw i : Nat) (p : GameweekPlan),
      (planLoop ap maxT chips st gw h)[i]? = some p →
      (p.total_transfer_cost =
          max 0 (((p.transfers.length : ℤ) - (p.free_transfers : ℤ)) * 4) ∧
        (p.free_transfers = st.free_transfers ∨ p.free_transfers = 1 ∨
          p.free_transfers = 2) ∧
        ∀ q : GameweekPlan, (planLoop ap maxT chips st gw h)[i + 1]? = some q →
          q.free_transfers = if p.transfers.isEmpty then 2 else 1) := by
  intro h
  induction h with
  | zero => intro st gw i p hp; simp [planLoop] at hp
  | succ h ih =>
    intro st gw i p hp
    match i with
    | 0 =>
      simp only [planLoop, List.getElem?_cons_zero] at hp
      injection hp with hp
      subst hp
      refine ⟨by simp [planSingleGameweek], Or.inl rfl, ?_⟩
      intro q hq
      simp only [planLoop, List.getElem?_cons_succ] at hq
      have := planLoop_head_free ap maxT chips h
        (updateState st (planSingleGameweek st ap gw maxT chips)) (gw + 1) q hq
      rw [this]
      rfl
    | i + 1 =>
      simp only [planLoop, List.getElem?_cons_succ] at hp
      have hrec := ih (updateState st (planSingleGameweek st ap gw maxT chips))
        (gw + 1) i p hp
      refine ⟨hrec.1, ?_, ?_⟩
      · rcases hrec.2.1 with hfree | hfree
        · rw [hfree]
          unfold updateState
          by_cases hcase : (planSingleGameweek st ap gw maxT chips).transfers.isEmpty
          · right; right; simp [hcase]
          · right; left; simp [hcase]
        · exact Or.inr hfree
      · intro q hq
        simp only [planLoop, List.getElem?_cons_succ] at hq
        exact hrec.2.2 q hq

/-- C9: every period plan of `plan_transfers` reports
`transfer_cost = max(0, (transfers_made − free_transfers)·4)`, its
free-transfer balance is in {1, 2}, and the balance of the next period
is 2 exactly when this period made no transfers (else 1). -/
theorem plan_transfers_cost_rollover (cs ap : List PlayerData)
    (horizon maxT : Nat) (chips : Option (List (String × Bool))) (gw : Nat)
    (i : Nat) (p : GameweekPlan)
    (hp : ((planTransfers cs ap horizon maxT chips gw).gameweek_plans)[i]? = some p) :
    p.total_transfer_cost =
      max 0 (((p.transfers.length : ℤ) - (p.free_transfers : ℤ)) * 4) ∧
    (p.free_transfers = 1 ∨ p.free_transfers = 2) ∧
    ∀ q : GameweekPlan,
      ((planTransfers cs ap horizon maxT chips gw).gameweek_plans)[i + 1]? = some q →
      q.free_transfers = if p.transfers.isEmpty then 2 else 1 := by
  have hplans : (planTransfers cs ap horizon maxT chips gw).gameweek_plans =
      planLoop ap maxT
        (chips.getD [("wildcard", false), ("bench_boost", false),
          ("triple_captain", false), ("free_hit", false)])
        ⟨cs, gw, 1, (cs.map (fun p => p.price)).sum, []⟩ gw horizon := rfl
  rw [hplans] at hp
  have h := planLoop_spec ap maxT
    (chips.getD [("wildcard", false), ("bench_boost", false),
      ("triple_captain", false), ("free_hit", false)])
    horizon ⟨cs, gw, 1, (cs.map (fun p => p.price)).sum, []⟩ gw i p hp
  refine ⟨h.1, ?_, ?_⟩
  · rcases h.2.1 with hfree | hfree
    · exact Or.inl hfree
    · exact hfree
  · intro q hq
    rw [hplans] at hq
    exact h.2.2 q hq

/-- Witness for `plan_transfers_cost_rollover`: a two-period plan over
empty squad and pool — period 1 makes no transfers at balance 1 and
cost 0, and period 2's balance rolls over to 2. -/
theorem plan_transfers_cost_rollover_witness :
    ((planTransfers [] [] 2 1 none 1).gameweek_plans)[0]? =
      some (⟨1, [], 0, 0, 1, 0⟩ : GameweekPlan) ∧
    ((⟨1, [], 0, 0, 1, 0⟩ : GameweekPlan).total_transfer_cost =
      max 0 ((((⟨1, [], 0, 0, 1, 0⟩ : GameweekPlan).transfers.length : ℤ) -
        ((⟨1, [], 0, 0, 1, 0⟩ : GameweekPlan).free_transfers : ℤ)) * 4) ∧
    ((⟨1, [], 0, 0, 1, 0⟩ : GameweekPlan).free_transfers = 1 ∨
      (⟨1, [], 0, 0, 1, 0⟩ : GameweekPlan).free_transfers = 2) ∧
    ∀ q : GameweekPlan,
      ((planTransfers [] [] 2 1 none 1).gameweek_plans)[0 + 1]? = some q →
      q.free_transfers =
        if (⟨1, [], 0, 0, 1, 0⟩ : GameweekPlan).transfers.isEmpty then 2 else 1) :=
  ⟨by decide, plan_transfers_cost_rollover [] [] 2 1 none 1 0 ⟨1, [], 0, 0, 1, 0⟩ (by decide)⟩

/-- Helper: removing an id that matches no player from a list leaves
the sub-list of pool-matched ids unchanged. -/
lemma filter_ne_filter_mem (ids : List Nat) (x : Nat) (hx : x ∉ ids) :
    ∀ E : List Nat, ((E.filter (fun i => i ≠ x)).filter (fun i => i ∈ ids)) =
      E.filter (fun i => i ∈ ids) := by
  intro E
  induction E with
  | nil => rfl
  | cons e E ih =>
    by_cases he : e = x
    · subst he
      have h1 : (decide (e ≠ e)) = false := by simp
      have h2 : (decide (e ∈ ids)) = false := by simpa using hx
      rw [List.filter_cons, h1]
      simp only [Bool.false_eq_true, if_false]
      rw [List.filter_cons, h2]
      simp only [Bool.false_eq_true, if_false]
      exact ih
    · have h1 : (decide (e ≠ x)) = true := by simpa using he
      rw [List.filter_cons, if_pos h1, List.filter_cons, List.filter_cons, ih]

/-- Helper: the exclusion block ignores an id absent from the pool. -/
lemma exclusionConstraints_erase (ids : List Nat) (x : Nat) (hx : x ∉ ids)
    (E : List Nat) :
    exclusionConstraints ids (E.filter (fun i => i ≠ x)) =
      exclusionConstraints ids E := by
  unfold exclusionConstraints
  by_cases hE : E.isEmpty
  · rw [List.isEmpty_iff.mp hE]
    rfl
  · by_cases hE' : (E.filter (fun i => i ≠ x)).isEmpty
    · rw [if_pos hE', if_neg hE]
      have h := filter_ne_filter_mem ids x hx E
      rw [List.isEmpty_iff.mp hE'] at h
      rw [← h]
      rfl
    · rw [if_neg hE', if_neg hE, filter_ne_filter_mem ids x hx E]

/-- Helper: the requirement block ignores an id absent from the pool. -/
lemma requirementConstraints_erase (ids : List Nat) (x : Nat) (hx : x ∉ ids)
    (E : List Nat) :
    requirementConstraints ids (E.filter (fun i => i ≠ x)) =
      requirementConstraints ids E := by
  unfold requirementConstraints
  by_cases hE : E.isEmpty
  · rw [List.isEmpty_iff.mp hE]
    rfl
  · by_cases hE' : (E.filter (fun i => i ≠ x)).isEmpty
    · rw [if_pos hE', if_neg hE]
      have h := filter_ne_filter_mem ids x hx E
      rw [List.isEmpty_iff.mp hE'] at h
      rw [← h]
      rfl
    · rw [if_neg hE', if_neg hE, filter_ne_filter_mem ids x hx E]

/-- C10: an excluded or required id that matches no player in the pool
contributes no constraint and raises no error — the optimizer call is
identical to one with that id removed from the respective list. -/
theorem unmatched_id_no_effect (players : List PlayerData)
    (cons : OptimizationConstraints) (x : Nat) (solve : Problem → SolverOutcome)
    (hx : x ∉ players.map (fun p => p.id)) :
    optimizeSquad players
        { cons with excluded_players := cons.excluded_players.filter (fun i => i ≠ x) }
        solve =
      optimizeSquad players cons solve ∧
    optimizeSquad players
        { cons with required_players := cons.required_players.filter (fun i => i ≠ x) }
        solve =
      optimizeSquad players cons solve := by
  have hobj1 : objectiveTerms players
      { cons with excluded_players := cons.excluded_players.filter (fun i => i ≠ x) } =
      objectiveTerms players cons := rfl
  have hform1 : formationBlock players
      { cons with excluded_players := cons.excluded_players.filter (fun i => i ≠ x) } =
      formationBlock players cons := rfl
  have hobj2 : objectiveTerms players
      { cons with required_players := cons.required_players.filter (fun i => i ≠ x) } =
      objectiveTerms players cons := rfl
  have hform2 : formationBlock players
      { cons with required_players := cons.required_players.filter (fun i => i ≠ x) } =
      formationBlock players cons := rfl
  have hbuild1 : buildProblem players
      { cons with excluded_players := cons.excluded_players.filter (fun i => i ≠ x) } =
      buildProblem players cons := by
    unfold buildProblem addSquadConstraints
    dsimp only
    rw [hobj1, hform1, exclusionConstraints_erase (players.map (fun p => p.id)) x hx]
  have hbuild2 : buildProblem players
      { cons with required_players := cons.required_players.filter (fun i => i ≠ x) } =
      buildProblem players cons := by
    unfold buildProblem addSquadConstraints
    dsimp only
    rw [hobj2, hform2, requirementConstraints_erase (players.map (fun p => p.id)) x hx]
  constructor
  · unfold optimizeSquad
    rw [hbuild1]
    rfl
  · unfold optimizeSquad
    rw [hbuild2]
    rfl

/-- Witness for `unmatched_id_no_effect`: id 999 matches nothing in the
one-player pool, so dropping it from the excluded or required list
leaves the call unchanged. -/
theorem unmatched_id_no_effect_witness :
    (999 ∉ poolW.map (fun p => p.id)) ∧
    (optimizeSquad poolW
        { (⟨100, 15, 11, 3, none, [999], [999], 1/2⟩ : OptimizationConstraints) with
            excluded_players := [999].filter (fun i => i ≠ 999) } solveInfeasible =
      optimizeSquad poolW ⟨100, 15, 11, 3, none, [999], [999], 1/2⟩ solveInfeasible ∧
    optimizeSquad poolW
        { (⟨100, 15, 11, 3, none, [999], [999], 1/2⟩ : OptimizationConstraints) with
            required_players := [999].filter (fun i => i ≠ 999) } solveInfeasible =
      optimizeSquad poolW ⟨100, 15, 11, 3, none, [999], [999], 1/2⟩ solveInfeasible) :=
  ⟨by decide,
    unmatched_id_no_effect poolW ⟨100, 15, 11, 3, none, [999], [999], 1/2⟩ 999
      solveInfeasible (by decide)⟩

/-- Witness for `findBestFormation_first_strict_max` at the concrete
`pool6` search (the selected 3-4-3 strictly beats the empty prefix and
weakly beats the later tied 3-5-2). -/
theorem findBestFormation_first_strict_max_witness :
    ((findBestFormation pool6 cons6 solve6).best_formation = none ∧
      ∀ x ∈ formationSuccesses pool6 cons6 solve6, x.2.predicted_points ≤ 0) ∨
    (∃ l1 nm sol l2,
      formationSuccesses pool6 cons6 solve6 = l1 ++ (nm, sol) :: l2 ∧
      (findBestFormation pool6 cons6 solve6).best_formation = some nm ∧
      (findBestFormation pool6 cons6 solve6).best_result = some sol ∧
      0 < sol.predicted_points ∧
      (∀ x ∈ l1, x.2.predicted_points < sol.predicted_points) ∧
      (∀ x ∈ l2, x.2.predicted_points ≤ sol.predicted_points)) :=
  findBestFormation_first_strict_max pool6 cons6 solve6
